import Mathlib

/-!
Verification of `tfx/orchestration/portable/execution_publish_utils.py`
(the Execution Publisher component) against its specification.

The module under verification is a thin orchestration layer: each public
operation stages in-memory mutations of an execution record (and of the
output-artifact maps) and then delegates persistence to the external
metadata-store client (`execution_lib`, `metadata_handle.store`).  The
collaborators that are not part of the source slice — `merge_utils`,
`execution_lib`, `data_types_utils`, `datahub_utils`, and the MLMD store
itself — are modelled from the specification's description of them; each
such definition carries a doc comment starting with `Modelled from the
spec:`.  Everything else is a direct translation of the Python source.

Python exceptions are embedded as an `Except PublishError` result; the
store is threaded explicitly, so a call that returns `.error` has, by
construction, not persisted anything.  In-place mutation of caller-owned
records (protobuf messages in Python) is embedded by returning the
post-mutation values explicitly.
-/

namespace Spec2Proof

/-- Execution states from `metadata_store_pb2.Execution.State`. -/
inductive ExecState
  | UNKNOWN
  | NEW
  | RUNNING
  | COMPLETE
  | FAILED
  | CACHED
  | CANCELED
  deriving DecidableEq

/-- Artifact lifecycle states from `tfx.types.artifact.ArtifactState`
(the members this module touches, plus representatives of the rest). -/
inductive ArtifactState
  | PENDING
  | PUBLISHED
  | REFERENCE
  | MISSING
  | DELETED
  deriving DecidableEq

/-- An output artifact: an id, its concrete type, and its lifecycle state.
URI and other payload fields are irrelevant to this module and omitted. -/
structure Artifact where
  id : Nat
  typeId : Nat
  state : ArtifactState
  deriving DecidableEq

/-- `typing_utils.ArtifactMultiMap`: output-channel key → ordered artifacts.
Python dicts are embedded as association lists (first binding wins). -/
abbrev ArtifactMultiMap := List (String × List Artifact)

/-- `execution_result_pb2.ExecutionResult`: status code, message, and opaque
metadata.  The metadata payload is a well-known Struct in the proto, falsy
exactly when it has no fields; it is embedded as a key-value list so that
emptiness is its list-emptiness. -/
structure ExecutionResult where
  code : Int
  resultMessage : String
  metadataDetails : List (String × String)
  deriving DecidableEq

/-- `execution_result_pb2.ExecutorOutput`: the payload reported by the code
that ran the node.  `outputArtifacts` is kept in already-unpacked
`ArtifactMultiMap` form (see `unpack_executor_output_artifacts`), and
execution-property values are embedded as strings. -/
structure ExecutorOutput where
  executionResult : ExecutionResult
  outputArtifacts : ArtifactMultiMap
  executionProperties : List (String × String)
  deriving DecidableEq

/-- `metadata_store_pb2.Execution`: id (0 = not yet persisted), registration
name, type, last-known state, custom properties, and the structured
execution-result custom property staged by `execution_lib.set_execution_result`. -/
structure Execution where
  id : Nat
  name : String
  typeId : Nat
  lastKnownState : ExecState
  customProperties : List (String × String)
  executionResult : Option ExecutionResult
  deriving DecidableEq

/-- `metadata_store_pb2.Context`: an opaque grouping handle. -/
structure Context where
  id : Nat
  deriving DecidableEq

/-- Event roles from `metadata_store_pb2.Event`. -/
inductive EventType
  | INPUT
  | OUTPUT
  | INTERNAL_OUTPUT
  deriving DecidableEq

/-- An MLMD event: a typed link between an execution and an artifact. -/
structure Event where
  executionId : Nat
  artifactId : Nat
  eventType : EventType
  deriving DecidableEq

/-- The external metadata store's visible state: executions, events,
context↔execution associations, and the next id it will assign. -/
structure MetadataStore where
  executions : List Execution
  events : List Event
  associations : List (Nat × Nat)
  nextExecutionId : Nat
  deriving DecidableEq

/-- The error taxonomy of the spec (§7): merge violations, missing execution
records, and registration-token collisions signalled by the store. -/
inductive PublishError
  | mergeError
  | notFound
  | duplicateRegistration
  deriving DecidableEq

/-- First binding of a channel key in an artifact multimap. -/
def lookupChannel (m : ArtifactMultiMap) (k : String) : Option (List Artifact) :=
  (m.find? (fun kv => kv.1 == k)).map (fun kv => kv.2)

/-- All artifacts of a multimap, across every channel. -/
def allArtifacts (m : ArtifactMultiMap) : List Artifact :=
  m.flatMap (fun kv => kv.2)

/-- Modelled from the spec: `data_types_utils.unpack_executor_output_artifacts`
is not in the source slice; the spec declares artifact (de)serialization out
of scope, so unpacking the executor-reported proto map into an
`ArtifactMultiMap` is the identity here. -/
def unpack_executor_output_artifacts (m : ArtifactMultiMap) : ArtifactMultiMap := m

/-- Every artifact of an updated channel has the originally declared type of
that channel (spec §4.2 rule 3). -/
def channelTypeOk (declared updated : List Artifact) : Bool :=
  updated.all (fun a => declared.all (fun b => a.typeId == b.typeId))

/-- Modelled from the spec: `merge_utils.merge_updated_output_artifacts` is
not in the source slice.  Per §4.2: a key of the update absent from the
declared skeleton is a `MergeError` (rule 1); an update replaces the entire
channel sequence (rule 2); a type change within an updated channel is a
`MergeError` (rule 3); channels absent from the update pass through
unchanged (rule 4); an absent update leaves the skeleton unchanged (rule 5). -/
def merge_updated_output_artifacts (declared : Option ArtifactMultiMap)
    (updated : Option ArtifactMultiMap) : Except PublishError ArtifactMultiMap :=
  let d := declared.getD []
  match updated with
  | none => .ok d
  | some u =>
    if u.all (fun kv => (lookupChannel d kv.1).isSome) then
      if u.all (fun kv => channelTypeOk ((lookupChannel d kv.1).getD []) kv.2) then
        .ok (d.map (fun kv => (kv.1, (lookupChannel u kv.1).getD kv.2)))
      else .error PublishError.mergeError
    else .error PublishError.mergeError

/-- The per-channel body of the publish loop in `publish_succeeded_execution`
(source lines 134–147): artifacts in state REFERENCE are skipped (left
unchanged, not appended); every other artifact has its state set to
PUBLISHED and is appended to the channel's list to publish. -/
def publishChannel (arts : List Artifact) : List Artifact :=
  arts.filterMap (fun a =>
    if a.state = ArtifactState.REFERENCE then none
    else some { a with state := ArtifactState.PUBLISHED })

/-- The `output_artifacts_to_publish` dict of `publish_succeeded_execution`:
every key of the merged map is kept (source line 135), with the channel body
filtered and republished by `publishChannel`. -/
def outputArtifactsToPublish (merged : ArtifactMultiMap) : ArtifactMultiMap :=
  merged.map (fun kv => (kv.1, publishChannel kv.2))

/-- `metadata_handle.store.get_executions_by_id`: the records of the store
whose id is in the requested list (the store itself signals nothing when an
id is missing; the caller unpacks the result). -/
def get_executions_by_id (store : MetadataStore) (ids : List Nat) : List Execution :=
  ids.flatMap (fun i => store.executions.filter (fun e => e.id == i))

/-- Events created by one persistence call: one event of the given role per
artifact of the map, linking it to the given execution. -/
def eventsFor (execId : Nat) (m : ArtifactMultiMap) (t : EventType) : List Event :=
  m.flatMap (fun kv => kv.2.map (fun a => { executionId := execId, artifactId := a.id, eventType := t }))

/-- Modelled from the spec: `execution_lib.put_execution` is not in the
source slice.  Per §6/§4.1 it atomically upserts the execution, its context
associations, and one event per input/output artifact; for a new execution
(id not yet assigned) the store enforces uniqueness of the registration
name, signalling a duplicate-registration condition on collision. -/
def put_execution (store : MetadataStore) (execution : Execution)
    (contexts : List Context) (inputArtifacts : ArtifactMultiMap)
    (outputArtifacts : ArtifactMultiMap) (outputEventType : EventType) :
    Except PublishError (MetadataStore × Execution) :=
  if execution.id == 0 then
    if store.executions.any (fun e => e.name == execution.name) then
      .error PublishError.duplicateRegistration
    else
      let newExec := { execution with id := store.nextExecutionId }
      .ok ({ executions := store.executions ++ [newExec],
             events := store.events ++ eventsFor newExec.id inputArtifacts EventType.INPUT
               ++ eventsFor newExec.id outputArtifacts outputEventType,
             associations := store.associations ++ contexts.map (fun c => (c.id, newExec.id)),
             nextExecutionId := store.nextExecutionId + 1 }, newExec)
  else
    .ok ({ executions :=
             if store.executions.any (fun e => e.id == execution.id) then
               store.executions.map (fun e => if e.id == execution.id then execution else e)
             else store.executions ++ [execution],
           events := store.events ++ eventsFor execution.id inputArtifacts EventType.INPUT
             ++ eventsFor execution.id outputArtifacts outputEventType,
           associations := store.associations ++ contexts.map (fun c => (c.id, execution.id)),
           nextExecutionId := store.nextExecutionId }, execution)

/-- Modelled from the spec: `execution_lib.put_executions` is not in the
source slice.  Per §4.5 it persists the batch of prepared executions
together with their parallel output-artifact maps and context associations. -/
def put_executions (store : MetadataStore)
    (pairs : List (Execution × ArtifactMultiMap)) (contexts : List Context) :
    Except PublishError (MetadataStore × List Execution) :=
  match pairs with
  | [] => .ok (store, [])
  | (e, m) :: rest =>
    match put_execution store e contexts [] m EventType.OUTPUT with
    | .error err => .error err
    | .ok (s1, e1) =>
      match put_executions s1 rest contexts with
      | .error err => .error err
      | .ok (s2, es) => .ok (s2, e1 :: es)

/-- Pair each execution with its output map; absent maps mean no artifacts. -/
def pairWithMaps (executions : List Execution)
    (maps : Option (List ArtifactMultiMap)) : List (Execution × ArtifactMultiMap) :=
  match maps with
  | none => executions.map (fun e => (e, []))
  | some ms => executions.zip ms

/-- `publish_cached_executions` (source lines 32–57): sets each execution of
the input sequence to CACHED in place, then persists the batch via
`execution_lib.put_executions`.  The Python function returns `None`; the
second component of the result is the in-memory sequence as the caller sees
it after the call (the in-place mutation), returned whether or not the
persistence call succeeds, since the mutation happens first. -/
def publish_cached_executions (store : MetadataStore) (contexts : List Context)
    (executions : List Execution) (outputArtifactsMaps : Option (List ArtifactMultiMap)) :
    Except PublishError MetadataStore × List Execution :=
  let cached := executions.map (fun e => { e with lastKnownState := ExecState.CACHED })
  ((put_executions store (pairWithMaps cached outputArtifactsMaps) contexts).map (fun p => p.1),
   cached)

/-- The emptiness test of `set_execution_result_if_not_empty` (source lines
65–69): message, then metadata, then code, each by Python truthiness. -/
def executionResultNonEmpty (res : ExecutionResult) : Bool :=
  res.resultMessage != "" || !res.metadataDetails.isEmpty || res.code != 0

/-- Modelled from the spec: `execution_lib.set_execution_result` is not in
the source slice; per §4.3 step 5 it attaches the executor's result record
as the execution's structured result property. -/
def set_execution_result (result : ExecutionResult) (execution : Execution) : Execution :=
  { execution with executionResult := some result }

/-- `set_execution_result_if_not_empty` (source lines 60–72): attach the
result only when an executor output is present and its result has a
non-empty message, non-empty metadata, or non-zero code; otherwise leave
the execution untouched. -/
def set_execution_result_if_not_empty (executorOutput : Option ExecutorOutput)
    (execution : Execution) : Execution :=
  match executorOutput with
  | some eo =>
    if executionResultNonEmpty eo.executionResult then
      set_execution_result eo.executionResult execution
    else execution
  | none => execution

/-- One `CopyFrom` into `execution.custom_properties[key]` (source line 153):
overwrite the binding when present, append it otherwise. -/
def copyProperty (props : List (String × String)) (key v : String) :
    List (String × String) :=
  if props.any (fun p => p.1 == key) then
    props.map (fun p => if p.1 == key then (key, v) else p)
  else props ++ [(key, v)]

/-- The property-copy loop of `publish_succeeded_execution` (source lines
151–153). -/
def copyExecutionProperties (execution : Execution)
    (eoProps : List (String × String)) : Execution :=
  { execution with
    customProperties :=
      eoProps.foldl (fun acc kv => copyProperty acc kv.1 kv.2) execution.customProperties }

/-- An observability sink: consumes the persisted execution and the
published artifacts; `none` models a sink failure. -/
abbrev DatahubSink := Execution → ArtifactMultiMap → Option Unit

/-- Modelled from the spec: `datahub_utils.log_component_execution` is not in
the source slice; per §4.3 step 7 and §7 the record is best-effort and a
sink failure is swallowed, never surfaced to the caller. -/
def log_component_execution (sink : DatahubSink) (execution : Execution)
    (outputArtifacts : ArtifactMultiMap) : Unit :=
  match sink execution outputArtifacts with
  | some u => u
  | none => ()

/-- The in-memory mutations `publish_succeeded_execution` applies to the
loaded execution record before persisting it (source lines 150–154): set
`last_known_state = COMPLETE`, copy every executor execution property into
the custom properties, then attach the non-empty result. -/
def stagedSucceededExecution (execution : Execution)
    (executorOutput : Option ExecutorOutput) : Execution :=
  set_execution_result_if_not_empty executorOutput
    (match executorOutput with
     | some eo =>
       copyExecutionProperties { execution with lastKnownState := ExecState.COMPLETE }
         eo.executionProperties
     | none => { execution with lastKnownState := ExecState.COMPLETE })

/-- `publish_succeeded_execution` (source lines 75–167): unpack and merge the
executor update into the declared skeleton, build the publish map (REFERENCE
artifacts excluded, others set to PUBLISHED — `outputArtifactsToPublish`),
load the execution record (exactly one must exist for the id), stage the
record's mutations (`stagedSucceededExecution`), persist with OUTPUT events
in one call, then emit the best-effort observability record.  Returns the
publish map and the persisted execution. -/
def publish_succeeded_execution (sink : DatahubSink) (store : MetadataStore)
    (executionId : Nat) (contexts : List Context)
    (outputArtifacts : Option ArtifactMultiMap)
    (executorOutput : Option ExecutorOutput) :
    Except PublishError (MetadataStore × ArtifactMultiMap × Execution) :=
  match merge_updated_output_artifacts outputArtifacts
      (executorOutput.map (fun eo => unpack_executor_output_artifacts eo.outputArtifacts)) with
  | .error err => .error err
  | .ok merged =>
    match get_executions_by_id store [executionId] with
    | [execution] =>
      match put_execution store (stagedSucceededExecution execution executorOutput)
          contexts [] (outputArtifactsToPublish merged) EventType.OUTPUT with
      | .error err => .error err
      | .ok (store1, execution1) =>
        let _ := log_component_execution sink execution1 (outputArtifactsToPublish merged)
        .ok (store1, outputArtifactsToPublish merged, execution1)
    | _ => .error PublishError.notFound

/-- `publish_failed_execution` (source lines 170–188): load the execution
(exactly one record for the id), set FAILED, attach the non-empty result,
persist with no artifact linkage. -/
def publish_failed_execution (store : MetadataStore) (contexts : List Context)
    (executionId : Nat) (executorOutput : Option ExecutorOutput) :
    Except PublishError (MetadataStore × Execution) :=
  match get_executions_by_id store [executionId] with
  | [execution] =>
    let execution := { execution with lastKnownState := ExecState.FAILED }
    let execution := set_execution_result_if_not_empty executorOutput execution
    put_execution store execution contexts [] [] EventType.OUTPUT
  | _ => .error PublishError.notFound

/-- `publish_internal_execution` (source lines 191–215): load the execution
(exactly one record for the id), set COMPLETE, persist with the output
artifacts linked via INTERNAL_OUTPUT events. -/
def publish_internal_execution (store : MetadataStore) (contexts : List Context)
    (executionId : Nat) (outputArtifacts : Option ArtifactMultiMap) :
    Except PublishError (MetadataStore × Execution) :=
  match get_executions_by_id store [executionId] with
  | [execution] =>
    let execution := { execution with lastKnownState := ExecState.COMPLETE }
    put_execution store execution contexts [] (outputArtifacts.getD [])
      EventType.INTERNAL_OUTPUT
  | _ => .error PublishError.notFound

/-- Modelled from the spec: `uuid.uuid4()` — a random 128-bit identifier
rendered as a name string; the process's randomness is passed in explicitly
as the 128-bit value `r`. -/
def uuid4 (r : Nat) : String := "uuid-" ++ toString (r % 2 ^ 128)

/-- The default of `register_execution`'s `last_known_state` parameter
(source line 224). -/
def registerDefaultLastKnownState : ExecState := ExecState.RUNNING

/-- Modelled from the spec: `execution_lib.prepare_execution` is not in the
source slice; per §4.1 it builds a not-yet-persisted execution record of the
given type, initial state, properties, and registration name. -/
def prepare_execution (executionType : Nat) (lastKnownState : ExecState)
    (execProperties : List (String × String)) (executionName : String) : Execution :=
  { id := 0
    name := executionName
    typeId := executionType
    lastKnownState := lastKnownState
    customProperties := execProperties
    executionResult := none }

/-- `register_execution` (source lines 218–259): generate the registration
token, prepare the execution with it, and persist it with its input
artifacts (INPUT events) and contexts in one call. -/
def register_execution (store : MetadataStore) (executionType : Nat)
    (contexts : List Context) (inputArtifacts : ArtifactMultiMap)
    (execProperties : List (String × String)) (lastKnownState : ExecState)
    (r : Nat) : Except PublishError (MetadataStore × Execution) :=
  let execName := uuid4 r
  let execution := prepare_execution executionType lastKnownState execProperties execName
  put_execution store execution contexts inputArtifacts [] EventType.OUTPUT

/-! ## Concrete fixtures

Small concrete stores, artifacts, and executions used to evaluate the
operations on closed inputs (the end-to-end scenarios of the spec). -/

/-- A declared output artifact in state PENDING. -/
def artifactPendingW : Artifact := { id := 2, typeId := 1, state := ArtifactState.PENDING }

/-- A declared output artifact in state REFERENCE (intermediate output). -/
def artifactReferenceW : Artifact := { id := 3, typeId := 1, state := ArtifactState.REFERENCE }

/-- A running execution with id 5. -/
def executionW : Execution :=
  { id := 5, name := "exec-5", typeId := 9, lastKnownState := ExecState.RUNNING,
    customProperties := [], executionResult := none }

/-- A store holding only `executionW`. -/
def storeW : MetadataStore :=
  { executions := [executionW], events := [], associations := [], nextExecutionId := 6 }

/-- An empty store. -/
def storeEmptyW : MetadataStore :=
  { executions := [], events := [], associations := [], nextExecutionId := 1 }

/-- A sink that always succeeds. -/
def sinkOkW : DatahubSink := fun _ _ => some ()

/-- A sink that always fails. -/
def sinkFailW : DatahubSink := fun _ _ => none

/-- Declared skeleton: one channel with a PENDING and a REFERENCE artifact. -/
def skeletonW : ArtifactMultiMap := [("out", [artifactPendingW, artifactReferenceW])]

/-- Declared skeleton: one channel holding only a REFERENCE artifact. -/
def skeletonRefW : ArtifactMultiMap := [("out", [artifactReferenceW])]

/-- `executionW` after a successful publish (state COMPLETE). -/
def execCompleteW : Execution :=
  { id := 5, name := "exec-5", typeId := 9, lastKnownState := ExecState.COMPLETE,
    customProperties := [], executionResult := none }

/-- `executionW` after a failed publish (state FAILED). -/
def execFailedW : Execution :=
  { id := 5, name := "exec-5", typeId := 9, lastKnownState := ExecState.FAILED,
    customProperties := [], executionResult := none }

/-- The publish map produced from `skeletonW`: the PENDING artifact
republished, the REFERENCE artifact dropped. -/
def publishedW : ArtifactMultiMap :=
  [("out", [{ id := 2, typeId := 1, state := ArtifactState.PUBLISHED }])]

/-- The store after publishing `executionW` as succeeded with `skeletonW`. -/
def storeSucceededW : MetadataStore :=
  { executions := [execCompleteW],
    events := [{ executionId := 5, artifactId := 2, eventType := EventType.OUTPUT }],
    associations := [], nextExecutionId := 6 }

/-- The store after publishing `executionW` as failed. -/
def storeFailedW : MetadataStore :=
  { executions := [execFailedW], events := [], associations := [], nextExecutionId := 6 }

/-- The store after publishing `executionW` internally with no artifacts. -/
def storeInternalW : MetadataStore :=
  { executions := [execCompleteW], events := [], associations := [], nextExecutionId := 6 }

/-- The execution registered into `storeEmptyW` with token `uuid4 77`. -/
def execRegW : Execution :=
  { id := 1, name := uuid4 77, typeId := 9, lastKnownState := ExecState.RUNNING,
    customProperties := [], executionResult := none }

/-- `storeEmptyW` after that registration. -/
def storeRegW : MetadataStore :=
  { executions := [execRegW], events := [], associations := [], nextExecutionId := 2 }

/-- A prepared (not yet persisted) execution handed to the cached publish. -/
def cachedInW : Execution :=
  { id := 0, name := "cached-in", typeId := 9, lastKnownState := ExecState.RUNNING,
    customProperties := [], executionResult := none }

/-- `cachedInW` after the in-place CACHED transition. -/
def cachedCW : Execution :=
  { id := 0, name := "cached-in", typeId := 9, lastKnownState := ExecState.CACHED,
    customProperties := [], executionResult := none }

/-- An executor output reporting artifacts under a channel key ("missing")
that the declared skeleton does not have. -/
def executorOutputMissingW : ExecutorOutput :=
  { executionResult := { code := 0, resultMessage := "", metadataDetails := [] },
    outputArtifacts := [("missing", [{ id := 4, typeId := 1, state := ArtifactState.PENDING }])],
    executionProperties := [] }

/-- The store after publishing `executionW` as succeeded over `skeletonRefW`:
the REFERENCE-only channel publishes no artifact, so no OUTPUT event. -/
def storeRefPubW : MetadataStore :=
  { executions := [execCompleteW], events := [], associations := [], nextExecutionId := 6 }

/-! ## Helper lemmas -/

/-- A successful `put_execution` preserves every field of the staged record
except (possibly) the id, puts the record in the store, and appends exactly
one INPUT event per input artifact and one event of the requested role per
output artifact, all carrying the persisted execution's id. -/
theorem put_execution_ok_elim (store : MetadataStore) (execution : Execution)
    (contexts : List Context) (ia oa : ArtifactMultiMap) (t : EventType)
    (store1 : MetadataStore) (e1 : Execution)
    (hok : put_execution store execution contexts ia oa t = .ok (store1, e1)) :
    e1.name = execution.name ∧ e1.lastKnownState = execution.lastKnownState
      ∧ e1.customProperties = execution.customProperties
      ∧ e1.executionResult = execution.executionResult
      ∧ e1.typeId = execution.typeId
      ∧ e1 ∈ store1.executions
      ∧ store1.events = store.events ++ eventsFor e1.id ia EventType.INPUT
          ++ eventsFor e1.id oa t := by
  unfold put_execution at hok
  split at hok
  · split at hok
    · exact Except.noConfusion hok
    · rename_i hname
      cases hok
      refine ⟨rfl, rfl, rfl, rfl, rfl, ?_, rfl⟩
      simp
  · split at hok <;> cases hok
    · rename_i hid hany
      refine ⟨rfl, rfl, rfl, rfl, rfl, ?_, rfl⟩
      rcases List.any_eq_true.mp hany with ⟨e, he, heq⟩
      exact List.mem_map.mpr ⟨e, he, by simp [heq]⟩
    · refine ⟨rfl, rfl, rfl, rfl, rfl, ?_, rfl⟩
      simp

/-- `put_execution` never signals `notFound`. -/
theorem put_execution_ne_notFound (store : MetadataStore) (execution : Execution)
    (contexts : List Context) (ia oa : ArtifactMultiMap) (t : EventType) :
    put_execution store execution contexts ia oa t ≠ .error PublishError.notFound := by
  unfold put_execution
  split
  · split <;> simp
  · split <;> simp

/-- Structure of a successful `publish_succeeded_execution`: the merge
succeeded, exactly one record was loaded for the id, the returned map is the
publish map of the merged map, and persistence ran on the staged record with
the publish map as OUTPUT artifacts. -/
theorem publish_succeeded_ok_elim (sink : DatahubSink) (store : MetadataStore)
    (executionId : Nat) (contexts : List Context)
    (outputArtifacts : Option ArtifactMultiMap)
    (executorOutput : Option ExecutorOutput)
    (store1 : MetadataStore) (published : ArtifactMultiMap) (exec1 : Execution)
    (hok : publish_succeeded_execution sink store executionId contexts
      outputArtifacts executorOutput = .ok (store1, published, exec1)) :
    ∃ merged execution,
      merge_updated_output_artifacts outputArtifacts
        (executorOutput.map (fun eo => unpack_executor_output_artifacts eo.outputArtifacts))
        = .ok merged
      ∧ get_executions_by_id store [executionId] = [execution]
      ∧ published = outputArtifactsToPublish merged
      ∧ put_execution store (stagedSucceededExecution execution executorOutput)
          contexts [] (outputArtifactsToPublish merged) EventType.OUTPUT
          = .ok (store1, exec1) := by
  unfold publish_succeeded_execution at hok
  split at hok
  · exact Except.noConfusion hok
  · rename_i merged hmerge
    split at hok
    · rename_i execution hget
      split at hok
      · exact Except.noConfusion hok
      · rename_i s1 e1 hput
        simp only [Except.ok.injEq, Prod.mk.injEq] at hok
        obtain ⟨h1, h2, h3⟩ := hok
        subst h1; subst h3
        exact ⟨merged, execution, hmerge, hget, h2.symm, hput⟩
    · exact Except.noConfusion hok

/-- Origin of an artifact of a published channel: it is a non-REFERENCE
artifact of the input channel, republished as PUBLISHED. -/
theorem publishChannel_mem_elim (arts : List Artifact) (b : Artifact)
    (hb : b ∈ publishChannel arts) :
    ∃ a, a ∈ arts ∧ a.state ≠ ArtifactState.REFERENCE
      ∧ b = { a with state := ArtifactState.PUBLISHED } := by
  rcases List.mem_filterMap.mp hb with ⟨a, ha, hab⟩
  by_cases h : a.state = ArtifactState.REFERENCE
  · simp [publishChannel, h] at hab
  · simp [publishChannel, h] at hab
    exact ⟨a, ha, h, hab.symm⟩

/-- Every non-REFERENCE artifact of a channel appears, republished, in the
published channel. -/
theorem publishChannel_mem (arts : List Artifact) (a : Artifact)
    (ha : a ∈ arts) (hstate : a.state ≠ ArtifactState.REFERENCE) :
    { a with state := ArtifactState.PUBLISHED } ∈ publishChannel arts :=
  List.mem_filterMap.mpr ⟨a, ha, by simp [publishChannel, hstate]⟩

/-- Origin of an artifact of the publish map. -/
theorem allArtifacts_toPublish_elim (m : ArtifactMultiMap) (b : Artifact)
    (hb : b ∈ allArtifacts (outputArtifactsToPublish m)) :
    ∃ a, a ∈ allArtifacts m ∧ a.state ≠ ArtifactState.REFERENCE
      ∧ b = { a with state := ArtifactState.PUBLISHED } := by
  rcases List.mem_flatMap.mp hb with ⟨kv, hkv, hbkv⟩
  rcases List.mem_map.mp hkv with ⟨kv0, hkv0, rfl⟩
  rcases publishChannel_mem_elim kv0.2 b hbkv with ⟨a, ha, hstate, hab⟩
  exact ⟨a, List.mem_flatMap.mpr ⟨kv0, hkv0, ha⟩, hstate, hab⟩

/-- Every artifact of the publish map is in state PUBLISHED. -/
theorem allArtifacts_toPublish_published (m : ArtifactMultiMap) (b : Artifact)
    (hb : b ∈ allArtifacts (outputArtifactsToPublish m)) :
    b.state = ArtifactState.PUBLISHED := by
  rcases allArtifacts_toPublish_elim m b hb with ⟨a, _, _, rfl⟩
  rfl

/-- Every non-REFERENCE artifact of a map appears, republished, in its
publish map. -/
theorem mem_allArtifacts_toPublish (m : ArtifactMultiMap) (a : Artifact)
    (ha : a ∈ allArtifacts m) (hstate : a.state ≠ ArtifactState.REFERENCE) :
    { a with state := ArtifactState.PUBLISHED } ∈ allArtifacts (outputArtifactsToPublish m) := by
  rcases List.mem_flatMap.mp ha with ⟨kv, hkv, hakv⟩
  exact List.mem_flatMap.mpr ⟨(kv.1, publishChannel kv.2),
    List.mem_map.mpr ⟨kv, hkv, rfl⟩, publishChannel_mem kv.2 a hakv hstate⟩

/-- One persistence call creates an event for every artifact of its map. -/
theorem eventsFor_mem (execId : Nat) (m : ArtifactMultiMap) (t : EventType)
    (a : Artifact) (ha : a ∈ allArtifacts m) :
    ({ executionId := execId, artifactId := a.id, eventType := t } : Event)
      ∈ eventsFor execId m t := by
  rcases List.mem_flatMap.mp ha with ⟨kv, hkv, hakv⟩
  exact List.mem_flatMap.mpr ⟨kv, hkv, List.mem_map.mpr ⟨a, hakv, rfl⟩⟩

/-- `set_execution_result_if_not_empty` only ever touches the result field. -/
theorem set_execution_result_if_not_empty_state (eo : Option ExecutorOutput)
    (e : Execution) :
    (set_execution_result_if_not_empty eo e).lastKnownState = e.lastKnownState
      ∧ (set_execution_result_if_not_empty eo e).name = e.name
      ∧ (set_execution_result_if_not_empty eo e).customProperties = e.customProperties := by
  unfold set_execution_result_if_not_empty set_execution_result
  cases eo with
  | none => exact ⟨rfl, rfl, rfl⟩
  | some x =>
    by_cases h : executionResultNonEmpty x.executionResult = true
    · simp [h]
    · simp [h]

/-- The record staged by `publish_succeeded_execution` carries state COMPLETE. -/
theorem stagedSucceededExecution_state (execution : Execution)
    (eo : Option ExecutorOutput) :
    (stagedSucceededExecution execution eo).lastKnownState = ExecState.COMPLETE := by
  unfold stagedSucceededExecution
  cases eo with
  | none => exact (set_execution_result_if_not_empty_state _ _).1
  | some x =>
    exact (set_execution_result_if_not_empty_state _ _).1.trans rfl

/-! ## Claims -/

/-- C4: the execution's structured result property is set iff the executor
output is present and one of its result message, result metadata, or status
code is non-empty/non-zero; otherwise (executor output absent, or all three
fields empty/zero) the execution record is returned untouched — in
particular an already-attached result is not overwritten with an empty one. -/
theorem C4_result_attached_iff_nonEmpty (executorOutput : Option ExecutorOutput)
    (execution : Execution) :
    (∀ eo, executorOutput = some eo →
      executionResultNonEmpty eo.executionResult = true →
      set_execution_result_if_not_empty executorOutput execution
        = { execution with executionResult := some eo.executionResult })
    ∧ ((∀ eo, executorOutput = some eo →
        executionResultNonEmpty eo.executionResult = false) →
      set_execution_result_if_not_empty executorOutput execution = execution) := by
  constructor
  · rintro eo rfl hne
    simp [set_execution_result_if_not_empty, hne, set_execution_result]
  · intro h
    cases executorOutput with
    | none => rfl
    | some eo => simp [set_execution_result_if_not_empty, h eo rfl]

/-- Witness for C4: a result with only a non-zero code is attached; an
executor output whose result has empty message, empty metadata, and zero
code leaves the execution (with its previously attached result) untouched. -/
theorem C4_result_attached_iff_nonEmpty_witness :
    set_execution_result_if_not_empty
      (some { executionResult := { code := 1, resultMessage := "", metadataDetails := [] },
              outputArtifacts := [], executionProperties := [] })
      { id := 1, name := "e", typeId := 0, lastKnownState := ExecState.RUNNING,
        customProperties := [], executionResult := none }
      = { id := 1, name := "e", typeId := 0, lastKnownState := ExecState.RUNNING,
          customProperties := [],
          executionResult := some { code := 1, resultMessage := "", metadataDetails := [] } }
    ∧ set_execution_result_if_not_empty
      (some { executionResult := { code := 0, resultMessage := "", metadataDetails := [] },
              outputArtifacts := [], executionProperties := [] })
      { id := 1, name := "e", typeId := 0, lastKnownState := ExecState.RUNNING,
        customProperties := [],
        executionResult := some { code := 7, resultMessage := "old", metadataDetails := [] } }
      = { id := 1, name := "e", typeId := 0, lastKnownState := ExecState.RUNNING,
          customProperties := [],
          executionResult := some { code := 7, resultMessage := "old", metadataDetails := [] } } :=
  ⟨(C4_result_attached_iff_nonEmpty _ _).1 _ rfl (by decide),
   (C4_result_attached_iff_nonEmpty _ _).2 (by
    intro eo heo
    cases heo
    decide)⟩

/-- C9: the observability record is best-effort: `publish_succeeded_execution`
returns the same persisted store, map, and execution for any sink, so a sink
failure (modelled by a sink returning `none`) neither fails the publish nor
rolls back the persisted state; and `log_component_execution` swallows the
failure outright. -/
theorem C9_sink_failure_swallowed (sink1 sink2 : DatahubSink)
    (store : MetadataStore) (executionId : Nat) (contexts : List Context)
    (outputArtifacts : Option ArtifactMultiMap)
    (executorOutput : Option ExecutorOutput) :
    publish_succeeded_execution sink1 store executionId contexts outputArtifacts executorOutput
      = publish_succeeded_execution sink2 store executionId contexts outputArtifacts executorOutput
    ∧ ∀ (execution : Execution) (m : ArtifactMultiMap),
        log_component_execution (fun _ _ => none) execution m = () := by
  exact ⟨rfl, fun _ _ => rfl⟩

/-- C10: `publish_cached_executions` mutates the caller-supplied records in
place — the caller-visible sequence after the call is exactly the input with
every `last_known_state` set to CACHED and every other field unchanged (the
Python function itself returns `None`, so this is the only in-memory effect
the caller observes). -/
theorem C10_publish_cached_in_place (store : MetadataStore)
    (contexts : List Context) (executions : List Execution)
    (maps : Option (List ArtifactMultiMap)) :
    (publish_cached_executions store contexts executions maps).2
      = executions.map (fun e => { e with lastKnownState := ExecState.CACHED })
    ∧ (publish_cached_executions store contexts executions maps).2.map
        (fun e => (e.id, e.name, e.typeId, e.customProperties, e.executionResult))
      = executions.map
        (fun e => (e.id, e.name, e.typeId, e.customProperties, e.executionResult))
    ∧ ∀ e ∈ (publish_cached_executions store contexts executions maps).2,
        e.lastKnownState = ExecState.CACHED := by
  refine ⟨rfl, ?_, ?_⟩
  · simp [publish_cached_executions]
  · intro e he
    simp only [publish_cached_executions, List.mem_map] at he
    obtain ⟨e0, _, rfl⟩ := he
    rfl

/-- C2: each public operation sets the execution's `last_known_state` to the
state named for it: `register_execution` creates the execution with the
caller-supplied initial state (whose source default is RUNNING);
`publish_succeeded_execution` and `publish_internal_execution` set COMPLETE;
`publish_failed_execution` sets FAILED; `publish_cached_executions` sets
CACHED on every execution of its input sequence. -/
theorem C2_state_transition_coverage :
    registerDefaultLastKnownState = ExecState.RUNNING
    ∧ (∀ store executionType contexts inputArtifacts execProperties lastKnownState r store1 e1,
        register_execution store executionType contexts inputArtifacts execProperties
          lastKnownState r = .ok (store1, e1) → e1.lastKnownState = lastKnownState)
    ∧ (∀ sink store executionId contexts outputArtifacts executorOutput store1 published exec1,
        publish_succeeded_execution sink store executionId contexts outputArtifacts
          executorOutput = .ok (store1, published, exec1) →
        exec1.lastKnownState = ExecState.COMPLETE)
    ∧ (∀ store contexts executionId outputArtifacts store1 exec1,
        publish_internal_execution store contexts executionId outputArtifacts
          = .ok (store1, exec1) → exec1.lastKnownState = ExecState.COMPLETE)
    ∧ (∀ store contexts executionId executorOutput store1 exec1,
        publish_failed_execution store contexts executionId executorOutput
          = .ok (store1, exec1) → exec1.lastKnownState = ExecState.FAILED)
    ∧ (∀ store contexts executions maps,
        ∀ e ∈ (publish_cached_executions store contexts executions maps).2,
          e.lastKnownState = ExecState.CACHED) := by
  refine ⟨rfl, ?_, ?_, ?_, ?_, ?_⟩
  · intro store et ctx ia props st r s1 e1 h
    simp only [register_execution] at h
    exact (put_execution_ok_elim _ _ _ _ _ _ _ _ h).2.1
  · intro sink store i ctx oa eo s1 p e1 h
    obtain ⟨merged, execution, _, _, _, hput⟩ :=
      publish_succeeded_ok_elim _ _ _ _ _ _ _ _ _ h
    exact (put_execution_ok_elim _ _ _ _ _ _ _ _ hput).2.1.trans
      (stagedSucceededExecution_state _ _)
  · intro store ctx i oa s1 e1 h
    unfold publish_internal_execution at h
    split at h
    · exact (put_execution_ok_elim _ _ _ _ _ _ _ _ h).2.1
    · exact Except.noConfusion h
  · intro store ctx i eo s1 e1 h
    unfold publish_failed_execution at h
    split at h
    · exact (put_execution_ok_elim _ _ _ _ _ _ _ _ h).2.1.trans
        (set_execution_result_if_not_empty_state _ _).1
    · exact Except.noConfusion h
  · intro store ctx es maps e he
    simp only [publish_cached_executions, List.mem_map] at he
    obtain ⟨e0, _, rfl⟩ := he
    rfl

/-- Witness for C2: the concrete scenarios — registration (RUNNING),
succeeded publish (COMPLETE), internal publish (COMPLETE), failed publish
(FAILED), and cached publish (CACHED). -/
theorem C2_state_transition_coverage_witness :
    execRegW.lastKnownState = ExecState.RUNNING
    ∧ execCompleteW.lastKnownState = ExecState.COMPLETE
    ∧ execFailedW.lastKnownState = ExecState.FAILED
    ∧ cachedCW.lastKnownState = ExecState.CACHED :=
  ⟨C2_state_transition_coverage.2.1 storeEmptyW 9 [] [] [] ExecState.RUNNING 77
      storeRegW execRegW rfl,
   C2_state_transition_coverage.2.2.1 sinkFailW storeW 5 [] (some skeletonW) none
      storeSucceededW publishedW execCompleteW rfl,
   C2_state_transition_coverage.2.2.2.2.1 storeW [] 5 none storeFailedW execFailedW rfl,
   C2_state_transition_coverage.2.2.2.2.2 storeEmptyW [] [cachedInW] none cachedCW
      (by decide)⟩

/-- C1: on every successful `publish_succeeded_execution`, every artifact of
the merged output map whose declared state is not REFERENCE is republished
with state PUBLISHED into the returned linkage map and linked to the
persisted execution by an OUTPUT event, while every artifact declared in
state REFERENCE is absent from the linkage map (and, not being touched by
the loop, remains as declared in the merged map). -/
theorem C1_artifact_state_rule (sink : DatahubSink) (store : MetadataStore)
    (executionId : Nat) (contexts : List Context)
    (outputArtifacts : Option ArtifactMultiMap)
    (executorOutput : Option ExecutorOutput)
    (store1 : MetadataStore) (published : ArtifactMultiMap) (exec1 : Execution)
    (merged : ArtifactMultiMap)
    (hmerge : merge_updated_output_artifacts outputArtifacts
      (executorOutput.map (fun eo => unpack_executor_output_artifacts eo.outputArtifacts))
      = .ok merged)
    (hok : publish_succeeded_execution sink store executionId contexts
      outputArtifacts executorOutput = .ok (store1, published, exec1)) :
    ∀ a ∈ allArtifacts merged,
      (a.state ≠ ArtifactState.REFERENCE →
        ({ a with state := ArtifactState.PUBLISHED } : Artifact) ∈ allArtifacts published
        ∧ ({ executionId := exec1.id, artifactId := a.id,
             eventType := EventType.OUTPUT } : Event) ∈ store1.events)
      ∧ (a.state = ArtifactState.REFERENCE → a ∉ allArtifacts published) := by
  obtain ⟨merged', execution, hmerge', hget, hpub, hput⟩ :=
    publish_succeeded_ok_elim _ _ _ _ _ _ _ _ _ hok
  have hmm : merged = merged' := by
    injection hmerge.symm.trans hmerge'
  subst hmm
  subst hpub
  intro a ha
  constructor
  · intro hstate
    refine ⟨mem_allArtifacts_toPublish merged a ha hstate, ?_⟩
    rw [(put_execution_ok_elim _ _ _ _ _ _ _ _ hput).2.2.2.2.2.2]
    simp only [List.mem_append]
    right
    exact eventsFor_mem exec1.id (outputArtifactsToPublish merged) EventType.OUTPUT
      { a with state := ArtifactState.PUBLISHED }
      (mem_allArtifacts_toPublish merged a ha hstate)
  · intro hstate hmem
    have hp := allArtifacts_toPublish_published merged a hmem
    rw [hstate] at hp
    exact ArtifactState.noConfusion hp

/-- Witness for C1: in the concrete succeeded publish over `skeletonW`, the
PENDING artifact comes back PUBLISHED with an OUTPUT event, and the
REFERENCE artifact is excluded from the linkage map. -/
theorem C1_artifact_state_rule_witness :
    (({ artifactPendingW with state := ArtifactState.PUBLISHED } : Artifact)
        ∈ allArtifacts publishedW
      ∧ ({ executionId := 5, artifactId := 2, eventType := EventType.OUTPUT } : Event)
          ∈ storeSucceededW.events)
    ∧ artifactReferenceW ∉ allArtifacts publishedW := by
  have h := C1_artifact_state_rule sinkFailW storeW 5 [] (some skeletonW) none
    storeSucceededW publishedW execCompleteW skeletonW rfl rfl
  exact ⟨(h artifactPendingW (by decide)).1 (by decide),
    (h artifactReferenceW (by decide)).2 rfl⟩

/-- A channel key of the update that is absent from the declared skeleton
makes the merge a MergeError (spec §4.2 rule 1). -/
theorem merge_missing_key (declared : Option ArtifactMultiMap) (u : ArtifactMultiMap)
    (k : String) (arts : List Artifact) (hk : (k, arts) ∈ u)
    (hmissing : lookupChannel (declared.getD []) k = none) :
    merge_updated_output_artifacts declared (some u) = .error PublishError.mergeError := by
  have hall : (u.all (fun kv => (lookupChannel (declared.getD []) kv.1).isSome)) = false :=
    List.all_eq_false.mpr ⟨(k, arts), hk, by simp [hmissing]⟩
  simp [merge_updated_output_artifacts, hall]

/-- `publish_failed_execution` reports `notFound` exactly when the id does
not resolve to exactly one record. -/
theorem publish_failed_notFound_iff (store : MetadataStore) (contexts : List Context)
    (executionId : Nat) (executorOutput : Option ExecutorOutput) :
    publish_failed_execution store contexts executionId executorOutput
        = .error PublishError.notFound
      ↔ (get_executions_by_id store [executionId]).length ≠ 1 := by
  unfold publish_failed_execution
  rcases hget : get_executions_by_id store [executionId] with _ | ⟨e, _ | ⟨e2, t⟩⟩
  · exact iff_of_true rfl (by simp)
  · exact iff_of_false (put_execution_ne_notFound _ _ _ _ _ _) (by simp)
  · exact iff_of_true rfl (by simp)

/-- `publish_internal_execution` reports `notFound` exactly when the id does
not resolve to exactly one record. -/
theorem publish_internal_notFound_iff (store : MetadataStore) (contexts : List Context)
    (executionId : Nat) (outputArtifacts : Option ArtifactMultiMap) :
    publish_internal_execution store contexts executionId outputArtifacts
        = .error PublishError.notFound
      ↔ (get_executions_by_id store [executionId]).length ≠ 1 := by
  unfold publish_internal_execution
  rcases hget : get_executions_by_id store [executionId] with _ | ⟨e, _ | ⟨e2, t⟩⟩
  · exact iff_of_true rfl (by simp)
  · exact iff_of_false (put_execution_ne_notFound _ _ _ _ _ _) (by simp)
  · exact iff_of_true rfl (by simp)

/-- Once its merge has succeeded, `publish_succeeded_execution` reports
`notFound` exactly when the id does not resolve to exactly one record. -/
theorem publish_succeeded_notFound_iff (sink : DatahubSink) (store : MetadataStore)
    (executionId : Nat) (contexts : List Context)
    (outputArtifacts : Option ArtifactMultiMap) (executorOutput : Option ExecutorOutput)
    (merged : ArtifactMultiMap)
    (hmerge : merge_updated_output_artifacts outputArtifacts
      (executorOutput.map (fun eo => unpack_executor_output_artifacts eo.outputArtifacts))
      = .ok merged) :
    publish_succeeded_execution sink store executionId contexts outputArtifacts executorOutput
        = .error PublishError.notFound
      ↔ (get_executions_by_id store [executionId]).length ≠ 1 := by
  unfold publish_succeeded_execution
  rw [hmerge]
  rcases hget : get_executions_by_id store [executionId] with _ | ⟨e, _ | ⟨e2, t⟩⟩
  · exact iff_of_true rfl (by simp)
  · refine iff_of_false ?_ (by simp)
    intro h
    have h2 : (match put_execution store (stagedSucceededExecution e executorOutput)
          contexts [] (outputArtifactsToPublish merged) EventType.OUTPUT with
        | Except.error err => Except.error err
        | Except.ok (store1, execution1) =>
          Except.ok (store1, outputArtifactsToPublish merged, execution1))
        = (Except.error PublishError.notFound :
            Except PublishError (MetadataStore × ArtifactMultiMap × Execution)) := h
    rcases hput : put_execution store (stagedSucceededExecution e executorOutput)
        contexts [] (outputArtifactsToPublish merged) EventType.OUTPUT with err | ⟨s1, e1⟩
    · rw [hput] at h2
      cases h2
      exact put_execution_ne_notFound _ _ _ _ _ _ hput
    · rw [hput] at h2
      exact Except.noConfusion h2
  · exact iff_of_true rfl (by simp)

/-- C3: an executor-reported channel key absent from the declared skeleton
makes `publish_succeeded_execution` fail with MergeError; the error is
raised before the load/persist phase, so no store call is made — in this
embedding an `.error` result carries no store, so the caller's store is
untouched by construction. -/
theorem C3_unknown_key_merge_error (sink : DatahubSink) (store : MetadataStore)
    (executionId : Nat) (contexts : List Context)
    (outputArtifacts : Option ArtifactMultiMap) (eo : ExecutorOutput)
    (k : String) (arts : List Artifact)
    (hk : (k, arts) ∈ eo.outputArtifacts)
    (hmissing : lookupChannel (outputArtifacts.getD []) k = none) :
    publish_succeeded_execution sink store executionId contexts outputArtifacts (some eo)
      = .error PublishError.mergeError := by
  have h := merge_missing_key outputArtifacts
    (unpack_executor_output_artifacts eo.outputArtifacts) k arts hk hmissing
  unfold publish_succeeded_execution
  rw [show ((some eo).map (fun eo => unpack_executor_output_artifacts eo.outputArtifacts))
      = some (unpack_executor_output_artifacts eo.outputArtifacts) from rfl, h]

/-- Witness for C3: the spec's end-to-end scenario 3 — a "missing" channel
in the executor output over the declared skeleton raises MergeError. -/
theorem C3_unknown_key_merge_error_witness :
    publish_succeeded_execution sinkOkW storeW 5 [] (some skeletonW)
      (some executorOutputMissingW) = .error PublishError.mergeError :=
  C3_unknown_key_merge_error sinkOkW storeW 5 [] (some skeletonW) executorOutputMissingW
    "missing" [{ id := 4, typeId := 1, state := ArtifactState.PENDING }] (by decide) rfl

/-- C5: each publish operation over an existing execution id fails with the
`NotFound` error kind (the error taxonomy's name for the single-record
unpacking failure) exactly when the id does not resolve to exactly one
record in the store; `publish_succeeded_execution` is stated after its merge
phase has succeeded, since a merge failure is raised first in the source. -/
theorem C5_exactly_one_record (sink : DatahubSink) (store : MetadataStore)
    (executionId : Nat) (contexts : List Context)
    (outputArtifacts : Option ArtifactMultiMap) (executorOutput : Option ExecutorOutput)
    (merged : ArtifactMultiMap)
    (hmerge : merge_updated_output_artifacts outputArtifacts
      (executorOutput.map (fun eo => unpack_executor_output_artifacts eo.outputArtifacts))
      = .ok merged) :
    (publish_succeeded_execution sink store executionId contexts outputArtifacts executorOutput
        = .error PublishError.notFound
      ↔ (get_executions_by_id store [executionId]).length ≠ 1)
    ∧ (publish_failed_execution store contexts executionId executorOutput
        = .error PublishError.notFound
      ↔ (get_executions_by_id store [executionId]).length ≠ 1)
    ∧ (publish_internal_execution store contexts executionId outputArtifacts
        = .error PublishError.notFound
      ↔ (get_executions_by_id store [executionId]).length ≠ 1) :=
  ⟨publish_succeeded_notFound_iff sink store executionId contexts outputArtifacts
      executorOutput merged hmerge,
   publish_failed_notFound_iff store contexts executionId executorOutput,
   publish_internal_notFound_iff store contexts executionId outputArtifacts⟩

/-- Witness for C5: all three operations fail with NotFound on an empty
store (no record for id 5). -/
theorem C5_exactly_one_record_witness :
    publish_succeeded_execution sinkOkW storeEmptyW 5 [] none none
        = .error PublishError.notFound
    ∧ publish_failed_execution storeEmptyW [] 5 none = .error PublishError.notFound
    ∧ publish_internal_execution storeEmptyW [] 5 none = .error PublishError.notFound :=
  have h := C5_exactly_one_record sinkOkW storeEmptyW 5 [] none none [] rfl
  ⟨h.1.mpr (by decide), h.2.1.mpr (by decide), h.2.2.mpr (by decide)⟩

/-- C6 counterexample: `publish_succeeded_execution` does not return the
merged artifact map.  With a skeleton whose only channel holds a REFERENCE
artifact and no executor update, the merged map is the skeleton itself, but
the returned map has that channel empty (the REFERENCE artifact is dropped
from the returned/published map). -/
theorem C6_counterexample :
    merge_updated_output_artifacts (some skeletonRefW) none = .ok skeletonRefW
    ∧ (publish_succeeded_execution sinkOkW storeW 5 [] (some skeletonRefW) none).map
        (fun x => x.2.1) = .ok [("out", [])]
    ∧ ([("out", ([] : List Artifact))] : ArtifactMultiMap) ≠ skeletonRefW :=
  ⟨rfl, rfl, by decide⟩

/-- C6 (amended): `publish_succeeded_execution` returns, together with the
persisted execution record, the merged artifact map transformed per channel:
REFERENCE-state artifacts are removed and the remaining artifacts are
returned with state PUBLISHED (channel keys are all preserved; channels
untouched by the executor update still only differ by this republication). -/
theorem C6_amended_return (sink : DatahubSink) (store : MetadataStore)
    (executionId : Nat) (contexts : List Context)
    (outputArtifacts : Option ArtifactMultiMap) (executorOutput : Option ExecutorOutput)
    (store1 : MetadataStore) (published : ArtifactMultiMap) (exec1 : Execution)
    (merged : ArtifactMultiMap)
    (hmerge : merge_updated_output_artifacts outputArtifacts
      (executorOutput.map (fun eo => unpack_executor_output_artifacts eo.outputArtifacts))
      = .ok merged)
    (hok : publish_succeeded_execution sink store executionId contexts
      outputArtifacts executorOutput = .ok (store1, published, exec1)) :
    published = outputArtifactsToPublish merged ∧ exec1 ∈ store1.executions := by
  obtain ⟨merged', execution, hmerge', hget, hpub, hput⟩ :=
    publish_succeeded_ok_elim _ _ _ _ _ _ _ _ _ hok
  have hmm : merged = merged' := by
    injection hmerge.symm.trans hmerge'
  subst hmm
  exact ⟨hpub, (put_execution_ok_elim _ _ _ _ _ _ _ _ hput).2.2.2.2.2.1⟩

/-- Witness for C6 (amended): the REFERENCE-only publish returns the
publish map of the skeleton (channel kept, artifact dropped) and the
persisted COMPLETE execution. -/
theorem C6_amended_return_witness :
    ([("out", ([] : List Artifact))] : ArtifactMultiMap)
        = outputArtifactsToPublish skeletonRefW
    ∧ execCompleteW ∈ storeRefPubW.executions :=
  C6_amended_return sinkOkW storeW 5 [] (some skeletonRefW) none storeRefPubW
    [("out", [])] execCompleteW skeletonRefW rfl rfl

/-- C7: the output-artifact merge is an identity when the update is absent —
`merge(D, None) = D` — and a `publish_succeeded_execution` call with no
executor output therefore publishes exactly from the declared skeleton: the
returned linkage map is the publish map of D itself, and every published
artifact is a republished non-REFERENCE artifact of D. -/
theorem C7_merge_absent_identity (D : ArtifactMultiMap) (sink : DatahubSink)
    (store : MetadataStore) (executionId : Nat) (contexts : List Context)
    (store1 : MetadataStore) (published : ArtifactMultiMap) (exec1 : Execution) :
    merge_updated_output_artifacts (some D) none = .ok D
    ∧ (publish_succeeded_execution sink store executionId contexts (some D) none
        = .ok (store1, published, exec1) →
      published = outputArtifactsToPublish D
      ∧ ∀ b ∈ allArtifacts published, ∃ a, a ∈ allArtifacts D
          ∧ a.state ≠ ArtifactState.REFERENCE
          ∧ b = { a with state := ArtifactState.PUBLISHED }) := by
  refine ⟨rfl, ?_⟩
  intro hok
  obtain ⟨merged, execution, hmerge, hget, hpub, hput⟩ :=
    publish_succeeded_ok_elim _ _ _ _ _ _ _ _ _ hok
  have hD : D = merged := by
    have h2 : (Except.ok D : Except PublishError ArtifactMultiMap) = .ok merged := hmerge
    injection h2
  subst hD
  subst hpub
  exact ⟨rfl, fun b hb => allArtifacts_toPublish_elim D b hb⟩

/-- Witness for C7: over `skeletonW` with no executor output, the merge is
the identity and the returned map is the publish map of the skeleton. -/
theorem C7_merge_absent_identity_witness :
    merge_updated_output_artifacts (some skeletonW) none = .ok skeletonW
    ∧ publishedW = outputArtifactsToPublish skeletonW :=
  have h := C7_merge_absent_identity skeletonW sinkOkW storeW 5 []
    storeSucceededW publishedW execCompleteW
  ⟨h.1, (h.2 rfl).1⟩

/-- C8: `register_execution` generates the registration token `uuid4 r` (a
128-bit value rendered as a name string), attaches it as the execution's
name before the persistence call, and hands that record to the store in one
call; on success the persisted record carries the token, and if the token's
name already exists in the store the registration fails with the
store-signalled DuplicateRegistration condition (no second execution is
created: an `.error` result carries no store). -/
theorem C8_registration_token (store : MetadataStore) (executionType : Nat)
    (contexts : List Context) (inputArtifacts : ArtifactMultiMap)
    (execProperties : List (String × String)) (lastKnownState : ExecState) (r : Nat) :
    register_execution store executionType contexts inputArtifacts execProperties
        lastKnownState r
      = put_execution store
          (prepare_execution executionType lastKnownState execProperties (uuid4 r))
          contexts inputArtifacts [] EventType.OUTPUT
    ∧ (prepare_execution executionType lastKnownState execProperties (uuid4 r)).name
        = uuid4 r
    ∧ (∀ store1 e1,
        register_execution store executionType contexts inputArtifacts execProperties
          lastKnownState r = .ok (store1, e1) →
        e1.name = uuid4 r ∧ e1 ∈ store1.executions)
    ∧ ((∃ e, e ∈ store.executions ∧ e.name = uuid4 r) →
        register_execution store executionType contexts inputArtifacts execProperties
          lastKnownState r = .error PublishError.duplicateRegistration) := by
  refine ⟨rfl, rfl, ?_, ?_⟩
  · intro s1 e1 h
    simp only [register_execution] at h
    have he := put_execution_ok_elim _ _ _ _ _ _ _ _ h
    exact ⟨he.1, he.2.2.2.2.2.1⟩
  · rintro ⟨e, he, hname⟩
    have hany : (store.executions.any (fun e2 => e2.name == uuid4 r)) = true :=
      List.any_eq_true.mpr ⟨e, he, by simp [hname]⟩
    simp [register_execution, put_execution, prepare_execution, hany]

/-- Witness for C8: registering into the empty store persists the token
`uuid4 77`; retrying the same registration against the resulting store
collides and fails with DuplicateRegistration. -/
theorem C8_registration_token_witness :
    execRegW.name = uuid4 77 ∧ execRegW ∈ storeRegW.executions
    ∧ register_execution storeRegW 9 [] [] [] ExecState.RUNNING 77
        = .error PublishError.duplicateRegistration :=
  have h := C8_registration_token storeEmptyW 9 [] [] [] ExecState.RUNNING 77
  have h2 := C8_registration_token storeRegW 9 [] [] [] ExecState.RUNNING 77
  ⟨(h.2.2.1 storeRegW execRegW rfl).1, (h.2.2.1 storeRegW execRegW rfl).2,
   h2.2.2.2 ⟨execRegW, List.mem_cons_self _ _, rfl⟩⟩

end Spec2Proof
